import Mathlib

/-
  Verification development for the Map-Locator repository.

  The repository ships a Streamlit dashboard (src/app.py) whose genuinely
  algorithmic pieces are embedded below: the 3D-map view selection and the
  performance-score color classification.  The specification additionally
  describes a multi-anchor POI search core (GeoMath, SearchProviderClient,
  ResultNormalizer, MultiAnchorAggregator, ResultStore, Exporter) whose code
  is not part of the sources; those components are modelled from the spec,
  each such definition says so in its doc comment.
-/

namespace MapLocator

/- ===================== GeoMath ===================== -/

/-- Modelled from the spec: the source variant containing GeoMath is missing,
so this follows section 4.1 of the spec verbatim: the haversine great-circle
formula with Earth radius 6371 km, inputs in degrees.  Real numbers stand in
for IEEE floats. -/
noncomputable def haversine_km (alat alon blat blon : ℝ) : ℝ :=
  2 * 6371 * Real.arcsin (Real.sqrt (
    Real.sin ((blat - alat) * Real.pi / 180 / 2) ^ 2 +
    Real.cos (alat * Real.pi / 180) * Real.cos (blat * Real.pi / 180) *
      Real.sin ((blon - alon) * Real.pi / 180 / 2) ^ 2))

/-- Error raised by GeoMath on out-of-range coordinates (spec section 4.1). -/
inductive GeoError where
  | invalidCoordinate
deriving DecidableEq, Repr

/-- Coordinate validity: latitude in [-90, 90], longitude in [-180, 180]. -/
def InRange (lat lon : ℝ) : Prop :=
  -90 ≤ lat ∧ lat ≤ 90 ∧ -180 ≤ lon ∧ lon ≤ 180

/-- Range checks on real coordinates are classically decidable. -/
noncomputable instance inRangeDec (lat lon : ℝ) : Decidable (InRange lat lon) :=
  Classical.propDecidable _

/-- Modelled from the spec: `distance_km` of section 4.1 — haversine distance
guarded by the coordinate-range check, failing with `InvalidCoordinate`
when a latitude is outside [-90, 90] or a longitude outside [-180, 180]. -/
noncomputable def distance_km (alat alon blat blon : ℝ) : Except GeoError ℝ :=
  if InRange alat alon ∧ InRange blat blon then
    Except.ok (haversine_km alat alon blat blon)
  else Except.error GeoError.invalidCoordinate

/- ============ Dashboard code from src/app.py ============ -/

/-- One row of the branch DataFrame built by `load_branch_data` in
src/app.py; only the columns the embedded functions read are kept.
Python floats are embedded as rationals. -/
structure BranchRow where
  Branch : String
  Latitude : ℚ
  Longitude : ℚ
  Performance_Score : ℚ
deriving DecidableEq, Repr

/-- The marker color chosen for one performance score by the loop at the top
of `create_3d_map` in src/app.py: `score >= 0.9` gives the success green
RGBA, `score >= 0.7` the warning yellow, anything below the danger red. -/
def markerColor (score : ℚ) : List ℕ :=
  if 0.9 ≤ score then [16, 220, 96, 200]
  else if 0.7 ≤ score then [255, 206, 0, 180]
  else [240, 65, 65, 160]

/-- The CSS returned by `color_performance` in src/app.py: the same three
score buckets mapped to hex colors, spliced into a background/color rule. -/
def color_performance (val : ℚ) : String :=
  let color : String :=
    if 0.9 ≤ val then "#10dc60"
    else if 0.7 ≤ val then "#ffce00"
    else "#f04141"
  "background-color: " ++ color ++ "20; color: " ++ color ++ "; font-weight: bold;"

/-- The pydeck view parameters computed by `create_3d_map`. -/
structure ViewState where
  latitude : ℚ
  longitude : ℚ
  zoom : ℕ
deriving DecidableEq, Repr

/-- Mean of a list of rationals, embedding `pandas.Series.mean`. -/
def meanQ (xs : List ℚ) : ℚ := xs.sum / xs.length

/-- The view-selection block of `create_3d_map` (src/app.py lines 614-638).
Python's `if selected_branch and selected_branch != 'All Branches'` is truthy
only for a present, NON-EMPTY string; the filtered frame `data[data.Branch ==
selected]` is embedded as `List.filter`, and `.iloc[0]` as its head. -/
def selectView (data : List BranchRow) (selected : Option String) : ViewState :=
  match selected with
  | some s =>
    if s ≠ "" ∧ s ≠ "All Branches" then
      match data.filter (fun r => r.Branch == s) with
      | r :: _ => { latitude := r.Latitude, longitude := r.Longitude, zoom := 14 }
      | [] => { latitude := meanQ (data.map (·.Latitude))
                longitude := meanQ (data.map (·.Longitude)), zoom := 11 }
    else
      { latitude := meanQ (data.map (·.Latitude))
        longitude := meanQ (data.map (·.Longitude)), zoom := 11 }
  | none =>
      { latitude := meanQ (data.map (·.Latitude))
        longitude := meanQ (data.map (·.Longitude)), zoom := 11 }

/-- The algorithmic content of `create_3d_map` in src/app.py: the per-row
marker colors and the initial view state (layer/tooltip wiring is rendering
glue and not embedded). -/
def create_3d_map (data : List BranchRow) (selected : Option String) :
    List (List ℕ) × ViewState :=
  (data.map (fun r => markerColor r.Performance_Score), selectView data selected)

/- ===================== ResultNormalizer ===================== -/

/-- Modelled from the spec: a loosely-typed scalar JSON value as delivered by
the provider (section 6) — a number or a string. -/
inductive JsonVal where
  | num (q : ℚ)
  | str (s : String)
deriving DecidableEq, Repr

/-- Modelled from the spec: the shapes the `types` field may arrive in
(section 4.3): absent, an actual sequence, or a single string (which may be a
serialized textual representation of a sequence). -/
inductive TypesField where
  | absent
  | asList (xs : List String)
  | asText (s : String)
deriving DecidableEq, Repr

/-- Parse a decimal string (optional minus sign, digits, optional fractional
part) into a rational; any other shape is unparseable. -/
def parseRat (s : String) : Option ℚ :=
  let neg := s.startsWith "-"
  let t := if neg then s.drop 1 else s
  let sign : ℚ := if neg then -1 else 1
  match t.splitOn "." with
  | [w] => (w.toNat?).map (fun n => sign * (n : ℚ))
  | [w, f] =>
    match w.toNat?, f.toNat? with
    | some a, some b => some (sign * ((a : ℚ) + (b : ℚ) / (10 : ℚ) ^ f.length))
    | _, _ => none
  | _ => none

/-- Numeric coercion of a loosely-typed scalar (spec section 4.3). -/
def parseNum : JsonVal → Option ℚ
  | JsonVal.num q => some q
  | JsonVal.str s => parseRat s

/-- ASCII whitespace, as stripped by trimming. -/
def isSpaceChar (c : Char) : Bool := c == ' ' || c == '\t' || c == '\n' || c == '\r'

/-- Strip leading and trailing whitespace from a character list. -/
def trimChars (l : List Char) : List Char :=
  ((l.dropWhile isSpaceChar).reverse.dropWhile isSpaceChar).reverse

/-- Split a character list at commas; accumulator-based helper. -/
def splitCommaAux : List Char → List Char → List (List Char)
  | [], acc => [acc.reverse]
  | c :: cs, acc =>
    if c = ',' then acc.reverse :: splitCommaAux cs []
    else splitCommaAux cs (c :: acc)

/-- Split a character list at commas. -/
def splitComma (l : List Char) : List (List Char) := splitCommaAux l []

/-- Whether a list item of a serialized sequence is wrapped in matching
single or double quotes. -/
def isQuotedItem (l : List Char) : Bool :=
  decide (2 ≤ l.length) &&
  ((l.head? == some '\x27' && l.getLast? == some '\x27') ||
   (l.head? == some '\x22' && l.getLast? == some '\x22'))

/-- Strip the surrounding quote characters from a list item. -/
def unquoteItem (l : List Char) : List Char := (l.drop 1).dropLast

/-- Modelled from the spec: the variant-parsing step of section 9 for a
stringified list such as "[\x27bank\x27,\x27atm\x27]": a bracketed,
comma-separated sequence of quoted items parses to the item list; anything
else is unparseable (`none`).  Implemented over character lists. -/
def parseListLiteral (s : String) : Option (List String) :=
  let t := trimChars s.toList
  if t.head? == some '[' && t.getLast? == some ']' && decide (2 ≤ t.length) then
    let inner := (t.drop 1).dropLast
    if (trimChars inner).isEmpty then some []
    else
      let items := (splitComma inner).map trimChars
      if items.all isQuotedItem then
        some (items.map (fun l => String.mk (unquoteItem l)))
      else none
  else none

/-- Modelled from the spec: coercion of the `categories`/`types` field
(section 4.3) — a native sequence passes through, absent becomes empty, and
text first tries to parse as a serialized sequence, falling back to a
single-element sequence holding the raw string. -/
def coerceTypes : TypesField → List String
  | TypesField.absent => []
  | TypesField.asList xs => xs
  | TypesField.asText s =>
    match parseListLiteral s with
    | some xs => xs
    | none => [s]

/-- Modelled from the spec: an Anchor (section 3) — a named geographic
reference point with degree coordinates. -/
structure Anchor where
  id : String
  display_name : String
  latitude : ℚ
  longitude : ℚ
deriving DecidableEq, Repr

/-- Modelled from the spec: the raw provider payload (section 6) with its
recognized but optional, loosely-typed fields. -/
structure RawPOIPayload where
  name : Option String
  full_address : Option String
  latitude : Option JsonVal
  longitude : Option JsonVal
  rating : Option JsonVal
  review_count : Option JsonVal
  types : TypesField
  phone_number : Option String
  website : Option String
  place_link : Option String
deriving DecidableEq, Repr

/-- Rating coercion (spec sections 3 and 4.3): non-numeric or missing means
absent; the schema keeps only values in [0, 5]. -/
def ratingOf (jv : Option JsonVal) : Option ℚ :=
  match jv.bind parseNum with
  | some q => if 0 ≤ q ∧ q ≤ 5 then some q else none
  | none => none

/-- Review-count coercion (spec sections 3 and 4.3): non-numeric or missing
becomes 0; a numeric value is truncated to a non-negative integer. -/
def reviewCountOf (jv : Option JsonVal) : ℕ :=
  match jv.bind parseNum with
  | some q => if 0 ≤ q then q.floor.toNat else 0
  | none => 0

/-- Normalization failure (spec sections 4.3 and 7). -/
inductive NormalizationError where
  | missingCoordinates
  | invalidCoordinate
deriving DecidableEq, Repr

/-- Modelled from the spec: the canonical POIRecord entity of section 3.
The computed great-circle distance is a real number; all other numerics are
rationals standing in for floats. -/
structure POIRecord where
  name : String
  address : Option String
  latitude : ℚ
  longitude : ℚ
  rating : Option ℚ
  review_count : ℕ
  categories : List String
  phone : Option String
  website : Option String
  external_link : Option String
  distance_km : ℝ
  source_anchor_id : String
  search_query : String
  retrieved_at : ℕ

/-- Modelled from the spec: `normalize` of section 4.3 — reject payloads
lacking parseable latitude/longitude, reject out-of-range coordinates,
coerce the loose fields, compute the distance via GeoMath, and stamp the
provenance fields.  `now` is the timestamp stamped into `retrieved_at`. -/
noncomputable def normalize (raw : RawPOIPayload) (anchor : Anchor)
    (query : String) (now : ℕ) : Except NormalizationError POIRecord :=
  match raw.latitude.bind parseNum with
  | none => Except.error NormalizationError.missingCoordinates
  | some la =>
  match raw.longitude.bind parseNum with
  | none => Except.error NormalizationError.missingCoordinates
  | some lo =>
    if -90 ≤ la ∧ la ≤ 90 ∧ -180 ≤ lo ∧ lo ≤ 180 then
      Except.ok {
        name := raw.name.getD "Unknown"
        address := raw.full_address
        latitude := la
        longitude := lo
        rating := ratingOf raw.rating
        review_count := reviewCountOf raw.review_count
        categories := coerceTypes raw.types
        phone := raw.phone_number
        website := raw.website
        external_link := raw.place_link
        distance_km := haversine_km (anchor.latitude : ℝ) (anchor.longitude : ℝ)
          (la : ℝ) (lo : ℝ)
        source_anchor_id := anchor.id
        search_query := query
        retrieved_at := now }
    else Except.error NormalizationError.invalidCoordinate

/- ===================== MultiAnchorAggregator ===================== -/

/-- Modelled from the spec: the outcome of one provider HTTP attempt
(section 4.2) — a payload list, an authentication rejection, a transient
(5xx/connection/timeout) failure, or an unparseable response body. -/
inductive CallOutcome where
  | ok (payloads : List RawPOIPayload)
  | authFail (detail : String)
  | transientFail (detail : String)
  | malformed (detail : String)

/-- Modelled from the spec: the error classes `SearchProviderClient.search`
can fail with (section 4.2). -/
inductive SearchError where
  | auth (detail : String)
  | transient (detail : String)
  | malformedResponse (detail : String)
deriving DecidableEq, Repr

/-- Default retry budget for transient provider failures (spec 4.2). -/
def defaultRetries : ℕ := 2

/-- Translate a final provider attempt into the search result: payloads pass
through, each failure kind surfaces as its error class (spec section 4.2). -/
def finishCall : CallOutcome → Except SearchError (List RawPOIPayload)
  | CallOutcome.ok ps => Except.ok ps
  | CallOutcome.authFail d => Except.error (SearchError.auth d)
  | CallOutcome.malformed d => Except.error (SearchError.malformedResponse d)
  | CallOutcome.transientFail d => Except.error (SearchError.transient d)

/-- Modelled from the spec: the retry loop of section 4.2.  `f` gives the
outcome of each numbered attempt; transient failures are retried while budget
remains, authentication and malformed-response failures are surfaced
immediately and never retried. -/
def callWithRetry (f : ℕ → CallOutcome) :
    ℕ → ℕ → Except SearchError (List RawPOIPayload)
  | attempt, 0 => finishCall (f attempt)
  | attempt, n + 1 =>
    match f attempt with
    | CallOutcome.transientFail _ => callWithRetry f (attempt + 1) n
    | out => finishCall out

/-- Per-anchor aggregation status (spec section 3). -/
inductive AnchorStatus where
  | success
  | partialSuccess
  | failed
deriving DecidableEq, Repr

/-- Modelled from the spec: the AnchorOutcome entity of section 3. -/
structure AnchorOutcome where
  anchor_id : String
  status : AnchorStatus
  records_returned : ℕ
  error_detail : Option String
deriving DecidableEq, Repr

/-- Modelled from the spec: `MultiAnchorAggregator.aggregate` (section 4.4,
sequential reference behavior).  Each anchor is searched through the retry
loop; ok payloads are normalized, skipped records demote the outcome to
partial success; transient exhaustion and malformed responses fail only
their own anchor; an `AuthenticationError` is fatal and short-circuits the
remaining anchors with Failed outcomes carrying the same error detail. -/
noncomputable def aggregate (provider : Anchor → ℕ → CallOutcome)
    (query : String) (anchors : List Anchor) (now : ℕ) :
    List POIRecord × List AnchorOutcome :=
  match anchors with
  | [] => ([], [])
  | a :: rest =>
    match callWithRetry (provider a) 0 defaultRetries with
    | Except.ok raws =>
      let recs := raws.filterMap (fun r => (normalize r a query now).toOption)
      let res := aggregate provider query rest now
      (recs ++ res.1,
        { anchor_id := a.id
          status := if recs.length = raws.length then AnchorStatus.success
                    else AnchorStatus.partialSuccess
          records_returned := recs.length
          error_detail := none } :: res.2)
    | Except.error (SearchError.auth d) =>
      ([], (a :: rest).map (fun x =>
        { anchor_id := x.id, status := AnchorStatus.failed,
          records_returned := 0, error_detail := some d }))
    | Except.error (SearchError.transient d) =>
      let res := aggregate provider query rest now
      (res.1,
        { anchor_id := a.id, status := AnchorStatus.failed,
          records_returned := 0, error_detail := some d } :: res.2)
    | Except.error (SearchError.malformedResponse d) =>
      let res := aggregate provider query rest now
      (res.1,
        { anchor_id := a.id, status := AnchorStatus.failed,
          records_returned := 0, error_detail := some d } :: res.2)

/- ===================== ResultStore ===================== -/

/-- Modelled from the spec: a SearchHistoryEntry (section 3). -/
structure SearchHistoryEntry where
  timestamp : ℕ
  query : String
  anchor_ids : List String
  total_records : ℕ
  outcomes : List AnchorOutcome

/-- Modelled from the spec: the current ResultSet (section 3) — the merged
records of one search invocation plus its per-anchor outcomes. -/
structure ResultSet where
  records : List POIRecord
  outcomes : List AnchorOutcome

/-- Modelled from the spec: the session-scoped ResultStore (section 4.5).
There is always exactly one current ResultSet (initially the empty one). -/
structure ResultStore where
  current : ResultSet
  history : List SearchHistoryEntry

/-- The empty session state the store is created with (spec section 4.5). -/
def emptyStore : ResultStore := { current := { records := [], outcomes := [] }, history := [] }

/-- The mutating operations of the ResultStore interface (section 4.5); the
getters do not change state and need no operation.  Per the invariant of
section 4.5 the history log is append-only for the lifetime of the session,
so `clear` resets only the current ResultSet. -/
inductive StoreOp where
  | setCurrent (records : List POIRecord) (outcomes : List AnchorOutcome)
      (entry : SearchHistoryEntry)
  | clear

/-- Modelled from the spec: one ResultStore state transition —
`set_current` replaces the current ResultSet wholesale and appends the new
history entry; `clear` resets the current ResultSet. -/
def applyOp (s : ResultStore) : StoreOp → ResultStore
  | StoreOp.setCurrent r o e =>
    { current := { records := r, outcomes := o }, history := s.history ++ [e] }
  | StoreOp.clear => { s with current := { records := [], outcomes := [] } }

/-- Run a whole session's worth of store operations in order. -/
def runOps (s : ResultStore) (ops : List StoreOp) : ResultStore :=
  ops.foldl applyOp s

/- ===================== Exporter ===================== -/

/-- Export failure (spec section 4.6): the format token was not recognized. -/
inductive ExportError where
  | unsupportedFormat (token : String)
deriving DecidableEq, Repr

/-- RFC 4180 escaping of one CSV cell: quote the cell when it embeds a
delimiter, a quote or a newline, doubling embedded quotes. -/
def csvEscape (s : String) : String :=
  if s.contains ',' || s.contains '\x22' || s.contains '\n' then
    "\x22" ++ (s.replace "\x22" "\x22\x22") ++ "\x22"
  else s

/-- The fixed, documented column order of every export (spec section 4.6),
following the field order of the POIRecord schema. -/
def csvHeader : String :=
  "name,address,latitude,longitude,rating,review_count,categories,phone,website,external_link,distance_km,source_anchor_id,search_query,retrieved_at"

/-- One CSV data row.  `fmtReal` renders the computed real-valued distance
(decimal rendering of floats is a host concern and is passed in). -/
def csvRow (fmtReal : ℝ → String) (r : POIRecord) : String :=
  String.intercalate "," [
    csvEscape r.name,
    csvEscape (r.address.getD ""),
    toString r.latitude,
    toString r.longitude,
    (r.rating.map (fun q => toString q)).getD "",
    toString r.review_count,
    csvEscape (String.intercalate ";" r.categories),
    csvEscape (r.phone.getD ""),
    csvEscape (r.website.getD ""),
    csvEscape (r.external_link.getD ""),
    csvEscape (fmtReal r.distance_km),
    csvEscape r.source_anchor_id,
    csvEscape r.search_query,
    toString r.retrieved_at]

/-- Minimal JSON string escaping (backslash and quote). -/
def jsonEscape (s : String) : String :=
  (s.replace "\\" "\\\\").replace "\x22" "\\\x22"

/-- A JSON string literal. -/
def jsonStr (s : String) : String := "\x22" ++ jsonEscape s ++ "\x22"

/-- A JSON string or null for an optional field. -/
def jsonOptStr : Option String → String
  | some s => jsonStr s
  | none => "null"

/-- One record as a JSON object, fields in the documented column order. -/
def jsonObj (fmtReal : ℝ → String) (r : POIRecord) : String :=
  "\x7b" ++ String.intercalate "," [
    jsonStr "name" ++ ":" ++ jsonStr r.name,
    jsonStr "address" ++ ":" ++ jsonOptStr r.address,
    jsonStr "latitude" ++ ":" ++ jsonStr (toString r.latitude),
    jsonStr "longitude" ++ ":" ++ jsonStr (toString r.longitude),
    jsonStr "rating" ++ ":" ++ jsonOptStr (r.rating.map (fun q => toString q)),
    jsonStr "review_count" ++ ":" ++ toString r.review_count,
    jsonStr "categories" ++ ":" ++
      ("[" ++ String.intercalate "," (r.categories.map jsonStr) ++ "]"),
    jsonStr "phone" ++ ":" ++ jsonOptStr r.phone,
    jsonStr "website" ++ ":" ++ jsonOptStr r.website,
    jsonStr "external_link" ++ ":" ++ jsonOptStr r.external_link,
    jsonStr "distance_km" ++ ":" ++ jsonStr (fmtReal r.distance_km),
    jsonStr "source_anchor_id" ++ ":" ++ jsonStr r.source_anchor_id,
    jsonStr "search_query" ++ ":" ++ jsonStr r.search_query,
    jsonStr "retrieved_at" ++ ":" ++ toString r.retrieved_at] ++ "\x7d"

/-- Modelled from the spec: the spreadsheet serialization is an opaque binary
collaborator; it is represented as a tagged text rendering of the same rows.
C7 never inspects this value, only that the format token is accepted. -/
def xlsxBytes (fmtReal : ℝ → String) (records : List POIRecord) : String :=
  "XLSXWORKBOOK:" ++ String.intercalate "\n" (csvHeader :: records.map (csvRow fmtReal))

/-- Modelled from the spec: `Exporter.export` (section 4.6).  Serialized
bytes are modelled as strings; `export` is a Lean keyword, hence the name.
Recognized format tokens are exactly csv, json and xlsx; anything else fails
with `UnsupportedFormatError` and no partial output. -/
def export_records (fmtReal : ℝ → String) (records : List POIRecord)
    (format : String) : Except ExportError String :=
  if format = "csv" then
    Except.ok (String.intercalate "\n" (csvHeader :: records.map (csvRow fmtReal)))
  else if format = "json" then
    Except.ok ("[" ++ String.intercalate "," (records.map (jsonObj fmtReal)) ++ "]")
  else if format = "xlsx" then
    Except.ok (xlsxBytes fmtReal records)
  else Except.error (ExportError.unsupportedFormat format)

/- ===================== Theorems ===================== -/

/-- Claim C10: the map marker colors in `create_3d_map` and the table cell
styling in `color_performance` partition performance scores by the same
thresholds — a score of at least 0.9 maps to the success green in both, a
score in [0.7, 0.9) to the warning yellow in both, and a score below 0.7 to
the danger red in both. -/
theorem claim_C10_color_thresholds_agree :
    ∀ s : ℚ,
      (0.9 ≤ s →
        markerColor s = [16, 220, 96, 200] ∧
        color_performance s =
          "background-color: #10dc6020; color: #10dc60; font-weight: bold;") ∧
      (0.7 ≤ s ∧ s < 0.9 →
        markerColor s = [255, 206, 0, 180] ∧
        color_performance s =
          "background-color: #ffce0020; color: #ffce00; font-weight: bold;") ∧
      (s < 0.7 →
        markerColor s = [240, 65, 65, 160] ∧
        color_performance s =
          "background-color: #f0414120; color: #f04141; font-weight: bold;") := by
  intro s
  refine ⟨fun h => ?_, fun h => ?_, fun h => ?_⟩
  · constructor
    · simp [markerColor, if_pos h]
    · simp [color_performance, if_pos h]
  · have h9 : ¬ (0.9 : ℚ) ≤ s := not_le.mpr h.2
    constructor
    · simp [markerColor, if_neg h9, if_pos h.1]
    · simp [color_performance, if_neg h9, if_pos h.1]
  · have h9 : ¬ (0.9 : ℚ) ≤ s := not_le.mpr (h.trans (by norm_num))
    have h7 : ¬ (0.7 : ℚ) ≤ s := not_le.mpr h
    constructor
    · simp [markerColor, if_neg h9, if_neg h7]
    · simp [color_performance, if_neg h9, if_neg h7]

/-- Witness for claim C10 at the concrete scores 0.95, 0.8 and 0.5. -/
theorem claim_C10_witness :
    (markerColor 0.95 = [16, 220, 96, 200] ∧
      color_performance 0.95 =
        "background-color: #10dc6020; color: #10dc60; font-weight: bold;") ∧
    (markerColor 0.8 = [255, 206, 0, 180] ∧
      color_performance 0.8 =
        "background-color: #ffce0020; color: #ffce00; font-weight: bold;") ∧
    (markerColor 0.5 = [240, 65, 65, 160] ∧
      color_performance 0.5 =
        "background-color: #f0414120; color: #f04141; font-weight: bold;") :=
  ⟨(claim_C10_color_thresholds_agree 0.95).1 (by norm_num),
   (claim_C10_color_thresholds_agree 0.8).2.1 ⟨by norm_num, by norm_num⟩,
   (claim_C10_color_thresholds_agree 0.5).2.2 (by norm_num)⟩

/-- Counterexample to claim C9 as stated: for the selected branch name `""`
(an empty but present selection) and a DataFrame whose first row's Branch is
`""`, the name differs from 'All Branches' and a row matches, so the claim
demands a first-match center with zoom 14; the code's truthiness test
`if selected_branch and ...` is false for the empty string, so it centers at
the mean with zoom 11. -/
theorem claim_C9_counterexample :
    ("" ≠ "All Branches") ∧
    (([({ Branch := "", Latitude := 5, Longitude := 6, Performance_Score := 1 } :
        BranchRow)]).filter (fun r => r.Branch == "") =
      [{ Branch := "", Latitude := 5, Longitude := 6, Performance_Score := 1 }]) ∧
    (create_3d_map
        [{ Branch := "", Latitude := 5, Longitude := 6, Performance_Score := 1 }]
        (some "")).2.zoom = 11 ∧
    (create_3d_map
        [{ Branch := "", Latitude := 5, Longitude := 6, Performance_Score := 1 }]
        (some "")).2.zoom ≠ 14 := by
  refine ⟨by decide, by decide, rfl, by decide⟩

/-- Claim C9 (amended): `create_3d_map` centers the view at the first row
whose Branch equals the selected name with zoom 14 when the selected name is
NON-EMPTY, differs from 'All Branches' and at least one row matches; in every
other case (no selection, empty-string selection, 'All Branches', or no
matching row — stated for non-empty data, whose column means are defined) it
centers at the mean latitude and longitude of all rows with zoom 11. -/
theorem claim_C9_view_selection :
    ∀ (data : List BranchRow) (sel : Option String),
      (∀ s, sel = some s → s ≠ "" → s ≠ "All Branches" →
        ∀ r rest, data.filter (fun x => x.Branch == s) = r :: rest →
          (create_3d_map data sel).2 =
            { latitude := r.Latitude, longitude := r.Longitude, zoom := 14 }) ∧
      (∀ s, sel = some s → s ≠ "" → s ≠ "All Branches" →
        data ≠ [] → data.filter (fun x => x.Branch == s) = [] →
          (create_3d_map data sel).2 =
            { latitude := meanQ (data.map (·.Latitude)),
              longitude := meanQ (data.map (·.Longitude)), zoom := 11 }) ∧
      ((sel = none ∨ sel = some "" ∨ sel = some "All Branches") → data ≠ [] →
          (create_3d_map data sel).2 =
            { latitude := meanQ (data.map (·.Latitude)),
              longitude := meanQ (data.map (·.Longitude)), zoom := 11 }) := by
  intro data sel
  refine ⟨?_, ?_, ?_⟩
  · intro s hsel hne hnab r rest hf
    subst hsel
    simp only [create_3d_map, selectView]
    rw [if_pos ⟨hne, hnab⟩, hf]
  · intro s hsel hne hnab _ hf
    subst hsel
    simp only [create_3d_map, selectView]
    rw [if_pos ⟨hne, hnab⟩, hf]
  · rintro (h | h | h) _ <;> subst h <;> simp [create_3d_map, selectView]

/-- Witness for claim C9 (amended) on a concrete two-row DataFrame: selecting
"PANATHUR" centers on its row with zoom 14, and no selection centers on the
column means with zoom 11. -/
theorem claim_C9_witness :
    (create_3d_map
        [{ Branch := "PANATHUR", Latitude := 12, Longitude := 77, Performance_Score := 1 },
         { Branch := "BELLANDUR", Latitude := 14, Longitude := 79, Performance_Score := 1 }]
        (some "PANATHUR")).2 =
      { latitude := 12, longitude := 77, zoom := 14 } ∧
    (create_3d_map
        [{ Branch := "PANATHUR", Latitude := 12, Longitude := 77, Performance_Score := 1 },
         { Branch := "BELLANDUR", Latitude := 14, Longitude := 79, Performance_Score := 1 }]
        none).2 =
      { latitude := meanQ [12, 14], longitude := meanQ [77, 79], zoom := 11 } := by
  constructor
  · exact (claim_C9_view_selection
      [{ Branch := "PANATHUR", Latitude := 12, Longitude := 77, Performance_Score := 1 },
       { Branch := "BELLANDUR", Latitude := 14, Longitude := 79, Performance_Score := 1 }]
      (some "PANATHUR")).1 "PANATHUR" rfl (by decide) (by decide)
      { Branch := "PANATHUR", Latitude := 12, Longitude := 77, Performance_Score := 1 } []
      (by decide)
  · exact (claim_C9_view_selection
      [{ Branch := "PANATHUR", Latitude := 12, Longitude := 77, Performance_Score := 1 },
       { Branch := "BELLANDUR", Latitude := 14, Longitude := 79, Performance_Score := 1 }]
      none).2.2 (Or.inl rfl) (by decide)

/-- The history log only ever grows: running any operation sequence appends
some (possibly empty) suffix to the existing history. -/
theorem runOps_history_extends :
    ∀ (ops : List StoreOp) (s : ResultStore),
      ∃ t, (runOps s ops).history = s.history ++ t := by
  intro ops
  induction ops with
  | nil => intro s; exact ⟨[], by simp [runOps]⟩
  | cons op ops ih =>
    intro s
    obtain ⟨t, ht⟩ := ih (applyOp s op)
    have hstep : runOps s (op :: ops) = runOps (applyOp s op) ops := rfl
    cases op with
    | setCurrent r o e =>
      exact ⟨e :: t, by rw [hstep, ht]; simp [applyOp]⟩
    | clear =>
      exact ⟨t, by rw [hstep, ht]; simp [applyOp]⟩

/-- Claim C8: over every operation sequence of a session the search-history
log is append-only; `set_current` replaces the single current ResultSet
wholesale (exactly one ResultSet is current at every point, by the shape of
`ResultStore`) while appending, not mutating, history; `clear` leaves the
history untouched. -/
theorem claim_C8_store_invariants :
    ∀ (s : ResultStore) (ops : List StoreOp),
      (∃ t, (runOps s ops).history = s.history ++ t) ∧
      (∀ r o e,
        (applyOp s (StoreOp.setCurrent r o e)).current = { records := r, outcomes := o } ∧
        (applyOp s (StoreOp.setCurrent r o e)).history = s.history ++ [e]) ∧
      (applyOp s StoreOp.clear).history = s.history := by
  intro s ops
  refine ⟨runOps_history_extends ops s, fun r o e => ⟨rfl, rfl⟩, rfl⟩

/-- Claim C7: exporting an empty record sequence as csv yields the
header-only byte string and no error; every recognized format token (csv,
json, xlsx) succeeds, and an export can only fail with
`UnsupportedFormatError`, and only for tokens outside that set. -/
theorem claim_C7_export_error_discipline :
    ∀ fmtReal : ℝ → String,
      export_records fmtReal [] "csv" = Except.ok csvHeader ∧
      (∀ (recs : List POIRecord) (fmt : String),
        fmt = "csv" ∨ fmt = "json" ∨ fmt = "xlsx" →
        ∃ out, export_records fmtReal recs fmt = Except.ok out) ∧
      (∀ (recs : List POIRecord) (fmt : String) (e : ExportError),
        export_records fmtReal recs fmt = Except.error e →
        (fmt ≠ "csv" ∧ fmt ≠ "json" ∧ fmt ≠ "xlsx") ∧
        e = ExportError.unsupportedFormat fmt) := by
  intro fmtReal
  refine ⟨rfl, ?_, ?_⟩
  · rintro recs fmt (h | h | h) <;> subst h <;>
      simp [export_records]
  · intro recs fmt e h
    unfold export_records at h
    split_ifs at h with h1 h2 h3
    exact ⟨⟨h1, h2, h3⟩, by injection h with h'; exact h'.symm⟩

/-- Witness for claim C7: the json export of no records succeeds, and the
unrecognized token "pdf" is rejected exactly with `UnsupportedFormatError`. -/
theorem claim_C7_witness :
    (∃ out, export_records (fun _ => "") [] "json" = Except.ok out) ∧
    (("pdf" ≠ "csv" ∧ "pdf" ≠ "json" ∧ "pdf" ≠ "xlsx") ∧
      ExportError.unsupportedFormat "pdf" = ExportError.unsupportedFormat "pdf") :=
  ⟨(claim_C7_export_error_discipline (fun _ => "")).2.1 [] "json" (Or.inr (Or.inl rfl)),
   (claim_C7_export_error_discipline (fun _ => "")).2.2 [] "pdf"
     (ExportError.unsupportedFormat "pdf") rfl⟩

/-- Claim C5: the categories/types coercion maps a native sequence to itself,
a parseable serialized sequence (such as the text "[\x27bank\x27,\x27atm\x27]",
which yields ["bank", "atm"]) to its items, and unparseable text to the
non-empty single-element sequence holding the raw string; every successfully
normalized record carries exactly this coercion of its raw types field. -/
theorem claim_C5_types_normalization :
    (coerceTypes (TypesField.asText "[\x27bank\x27,\x27atm\x27]") = ["bank", "atm"]) ∧
    (∀ xs, coerceTypes (TypesField.asList xs) = xs) ∧
    (∀ s l, parseListLiteral s = some l → coerceTypes (TypesField.asText s) = l) ∧
    (∀ s, parseListLiteral s = none →
      coerceTypes (TypesField.asText s) = [s] ∧
      coerceTypes (TypesField.asText s) ≠ []) ∧
    (∀ (raw : RawPOIPayload) (a : Anchor) (q : String) (n : ℕ) (rec : POIRecord),
      normalize raw a q n = Except.ok rec → rec.categories = coerceTypes raw.types) := by
  refine ⟨by decide, fun xs => rfl, ?_, ?_, ?_⟩
  · intro s l h
    simp [coerceTypes, h]
  · intro s h
    refine ⟨by simp [coerceTypes, h], by simp [coerceTypes, h]⟩
  · intro raw a q n rec h
    unfold normalize at h
    split at h
    · exact absurd h (by simp)
    · split at h
      · exact absurd h (by simp)
      · split_ifs at h
        injection h with h'
        subst h'
        rfl

/-- Witness for claim C5: the text "bank" has no serialized-sequence parse
and coerces to the single-element sequence containing it. -/
theorem claim_C5_witness :
    coerceTypes (TypesField.asText "bank") = ["bank"] ∧
    coerceTypes (TypesField.asText "bank") ≠ [] :=
  claim_C5_types_normalization.2.2.2.1 "bank" (by decide)

/-- Claim C6: a raw payload lacking a parseable latitude or longitude is
rejected by `normalize` with a NormalizationError, and every successfully
returned POIRecord carries exactly the parsed latitude and longitude of its
payload — a record with absent coordinates is never produced. -/
theorem claim_C6_normalize_coordinates :
    ∀ (raw : RawPOIPayload) (a : Anchor) (q : String) (n : ℕ),
      ((raw.latitude.bind parseNum = none ∨ raw.longitude.bind parseNum = none) →
        normalize raw a q n = Except.error NormalizationError.missingCoordinates) ∧
      (∀ rec : POIRecord, normalize raw a q n = Except.ok rec →
        raw.latitude.bind parseNum = some rec.latitude ∧
        raw.longitude.bind parseNum = some rec.longitude) := by
  intro raw a q n
  constructor
  · intro h
    unfold normalize
    rcases h with h | h
    · rw [h]
    · rcases hla : raw.latitude.bind parseNum with _ | la
      · rfl
      · rw [h]
  · intro rec h
    unfold normalize at h
    split at h
    · exact absurd h (by simp)
    · rename_i la hla
      split at h
      · exact absurd h (by simp)
      · rename_i lo hlo
        split_ifs at h
        injection h with h'
        subst h'
        exact ⟨hla, hlo⟩

/-- Witness for claim C6: a payload with no coordinate fields at all is
rejected with `missingCoordinates`. -/
theorem claim_C6_witness :
    normalize
      { name := none, full_address := none, latitude := none, longitude := none,
        rating := none, review_count := none, types := TypesField.absent,
        phone_number := none, website := none, place_link := none }
      { id := "b1", display_name := "Branch 1", latitude := 0, longitude := 0 }
      "atm" 0 = Except.error NormalizationError.missingCoordinates :=
  (claim_C6_normalize_coordinates
    { name := none, full_address := none, latitude := none, longitude := none,
      rating := none, review_count := none, types := TypesField.absent,
      phone_number := none, website := none, place_link := none }
    { id := "b1", display_name := "Branch 1", latitude := 0, longitude := 0 }
    "atm" 0).1 (Or.inl rfl)

/-- Claim C1: when the provider call for the first anchor raises
AuthenticationError, the aggregation short-circuits — every anchor, the
not-yet-attempted ones included, receives a Failed AnchorOutcome carrying
the same error detail, and the returned record sequence is empty. -/
theorem claim_C1_auth_short_circuits :
    ∀ (provider : Anchor → ℕ → CallOutcome) (query : String) (a : Anchor)
      (rest : List Anchor) (now : ℕ) (d : String),
      provider a 0 = CallOutcome.authFail d →
      (aggregate provider query (a :: rest) now).1 = [] ∧
      (aggregate provider query (a :: rest) now).2 =
        (a :: rest).map (fun x =>
          { anchor_id := x.id, status := AnchorStatus.failed,
            records_returned := 0, error_detail := some d }) := by
  intro provider query a rest now d h
  have hc : callWithRetry (provider a) 0 defaultRetries =
      Except.error (SearchError.auth d) := by
    simp [callWithRetry, defaultRetries, h, finishCall]
  constructor <;> simp [aggregate, hc]

/-- Witness for claim C1: a provider whose credential is rejected outright,
over three anchors — three identical Failed outcomes, no records. -/
theorem claim_C1_witness :
    (aggregate (fun _ _ => CallOutcome.authFail "HTTP 401") "atm"
      [{ id := "A", display_name := "A", latitude := 0, longitude := 0 },
       { id := "B", display_name := "B", latitude := 1, longitude := 1 },
       { id := "C", display_name := "C", latitude := 2, longitude := 2 }] 0).1 = [] ∧
    (aggregate (fun _ _ => CallOutcome.authFail "HTTP 401") "atm"
      [{ id := "A", display_name := "A", latitude := 0, longitude := 0 },
       { id := "B", display_name := "B", latitude := 1, longitude := 1 },
       { id := "C", display_name := "C", latitude := 2, longitude := 2 }] 0).2 =
      [{ anchor_id := "A", status := AnchorStatus.failed, records_returned := 0,
         error_detail := some "HTTP 401" },
       { anchor_id := "B", status := AnchorStatus.failed, records_returned := 0,
         error_detail := some "HTTP 401" },
       { anchor_id := "C", status := AnchorStatus.failed, records_returned := 0,
         error_detail := some "HTTP 401" }] := by
  have h := claim_C1_auth_short_circuits (fun _ _ => CallOutcome.authFail "HTTP 401")
    "atm" { id := "A", display_name := "A", latitude := 0, longitude := 0 }
    [{ id := "B", display_name := "B", latitude := 1, longitude := 1 },
     { id := "C", display_name := "C", latitude := 2, longitude := 2 }] 0 "HTTP 401" rfl
  exact ⟨h.1, by rw [h.2]; rfl⟩

/-- A provider that fails transiently on every attempt exhausts any retry
budget and surfaces `TransientProviderError`. -/
theorem callWithRetry_always_transient :
    ∀ (f : ℕ → CallOutcome) (d : String), (∀ n, f n = CallOutcome.transientFail d) →
      ∀ (attempt retriesLeft : ℕ),
        callWithRetry f attempt retriesLeft = Except.error (SearchError.transient d) := by
  intro f d hf attempt retriesLeft
  induction retriesLeft generalizing attempt with
  | zero => simp [callWithRetry, hf, finishCall]
  | succ n ih =>
    rw [callWithRetry, hf]
    exact ih (attempt + 1)

/-- Claim C2: over the anchors [A, B], when A's call succeeds and B's call
raises TransientProviderError beyond the retry budget, the result has exactly
one outcome per anchor, B's outcome is Failed, and every record produced from
A's payloads is present in the merged record sequence. -/
theorem claim_C2_transient_failure_isolated :
    ∀ (provider : Anchor → ℕ → CallOutcome) (query : String) (A B : Anchor)
      (now : ℕ) (raws : List RawPOIPayload) (d : String),
      callWithRetry (provider A) 0 defaultRetries = Except.ok raws →
      (∀ n, provider B n = CallOutcome.transientFail d) →
      (aggregate provider query [A, B] now).2.length = 2 ∧
      (aggregate provider query [A, B] now).2[1]? = some
        { anchor_id := B.id, status := AnchorStatus.failed,
          records_returned := 0, error_detail := some d } ∧
      ∀ r : POIRecord,
        r ∈ raws.filterMap (fun x => (normalize x A query now).toOption) →
        r ∈ (aggregate provider query [A, B] now).1 := by
  intro provider query A B now raws d hA hB
  have hBc := callWithRetry_always_transient (provider B) d hB 0 defaultRetries
  have h1 : (aggregate provider query [A, B] now).1 =
      raws.filterMap (fun x => (normalize x A query now).toOption) := by
    simp [aggregate, hA, hBc]
  refine ⟨by simp [aggregate, hA, hBc], by simp [aggregate, hA, hBc], ?_⟩
  intro r hr
  rw [h1]
  exact hr

/-- Witness for claim C2: anchor A answers with an empty payload list, anchor
B times out on every attempt — two outcomes, B Failed, records preserved. -/
theorem claim_C2_witness :
    (aggregate
      (fun a _ => if a.id = "A" then CallOutcome.ok []
                  else CallOutcome.transientFail "HTTP 500") "atm"
      [{ id := "A", display_name := "A", latitude := 0, longitude := 0 },
       { id := "B", display_name := "B", latitude := 1, longitude := 1 }] 0).2.length = 2 ∧
    (aggregate
      (fun a _ => if a.id = "A" then CallOutcome.ok []
                  else CallOutcome.transientFail "HTTP 500") "atm"
      [{ id := "A", display_name := "A", latitude := 0, longitude := 0 },
       { id := "B", display_name := "B", latitude := 1, longitude := 1 }] 0).2[1]? = some
      { anchor_id := "B", status := AnchorStatus.failed,
        records_returned := 0, error_detail := some "HTTP 500" } ∧
    ∀ r : POIRecord,
      r ∈ ([] : List RawPOIPayload).filterMap (fun x => (normalize x
        { id := "A", display_name := "A", latitude := 0, longitude := 0 } "atm" 0).toOption) →
      r ∈ (aggregate
        (fun a _ => if a.id = "A" then CallOutcome.ok []
                    else CallOutcome.transientFail "HTTP 500") "atm"
        [{ id := "A", display_name := "A", latitude := 0, longitude := 0 },
         { id := "B", display_name := "B", latitude := 1, longitude := 1 }] 0).1 :=
  claim_C2_transient_failure_isolated
    (fun a _ => if a.id = "A" then CallOutcome.ok []
                else CallOutcome.transientFail "HTTP 500") "atm"
    { id := "A", display_name := "A", latitude := 0, longitude := 0 }
    { id := "B", display_name := "B", latitude := 1, longitude := 1 }
    0 [] "HTTP 500" rfl (fun _ => rfl)

/-- Squared sine of a scaled coordinate difference is symmetric in the two
coordinates, because sine is odd and squaring is even. -/
theorem sin_sq_sub_symm (x y : ℝ) :
    Real.sin ((x - y) * Real.pi / 180 / 2) ^ 2 =
    Real.sin ((y - x) * Real.pi / 180 / 2) ^ 2 := by
  rw [show (x - y) * Real.pi / 180 / 2 = -((y - x) * Real.pi / 180 / 2) by ring,
    Real.sin_neg]
  ring

/-- The haversine distance is symmetric in its two points. -/
theorem haversine_km_symm (alat alon blat blon : ℝ) :
    haversine_km alat alon blat blon = haversine_km blat blon alat alon := by
  unfold haversine_km
  rw [sin_sq_sub_symm alat blat, sin_sq_sub_symm alon blon, mul_comm
    (Real.cos (blat * Real.pi / 180)) (Real.cos (alat * Real.pi / 180))]

/-- The haversine distance from a point to itself is exactly zero. -/
theorem haversine_km_self (lat lon : ℝ) : haversine_km lat lon lat lon = 0 := by
  unfold haversine_km
  simp [sub_self, zero_mul, zero_div, Real.sin_zero, Real.sqrt_zero,
    Real.arcsin_zero]

/-- The haversine distance is never negative. -/
theorem haversine_km_nonneg (alat alon blat blon : ℝ) :
    0 ≤ haversine_km alat alon blat blon := by
  unfold haversine_km
  exact mul_nonneg (by norm_num)
    (Real.arcsin_nonneg.2 (Real.sqrt_nonneg _))

/-- Claim C3: for in-range coordinate pairs, `distance_km` is symmetric (it
holds exactly, hence within any floating-point tolerance), the distance of a
point to itself is exactly zero, and every returned distance is
non-negative. -/
theorem claim_C3_distance_algebra :
    ∀ alat alon blat blon : ℝ, InRange alat alon → InRange blat blon →
      distance_km alat alon blat blon = distance_km blat blon alat alon ∧
      distance_km alat alon alat alon = Except.ok 0 ∧
      ∀ d : ℝ, distance_km alat alon blat blon = Except.ok d → 0 ≤ d := by
  intro alat alon blat blon h1 h2
  refine ⟨?_, ?_, ?_⟩
  · unfold distance_km
    rw [if_pos ⟨h1, h2⟩, if_pos ⟨h2, h1⟩, haversine_km_symm]
  · unfold distance_km
    rw [if_pos ⟨h1, h1⟩, haversine_km_self]
  · intro d hd
    unfold distance_km at hd
    rw [if_pos ⟨h1, h2⟩] at hd
    injection hd with h'
    rw [← h']
    exact haversine_km_nonneg alat alon blat blon

/-- Witness for claim C3 at the in-range points (10, 20) and (30, 40). -/
theorem claim_C3_witness :
    distance_km 10 20 30 40 = distance_km 30 40 10 20 ∧
    distance_km 10 20 10 20 = Except.ok 0 := by
  have h1 : InRange (10 : ℝ) 20 := by
    refine ⟨?_, ?_, ?_, ?_⟩ <;> norm_num
  have h2 : InRange (30 : ℝ) 40 := by
    refine ⟨?_, ?_, ?_, ?_⟩ <;> norm_num
  exact ⟨(claim_C3_distance_algebra 10 20 30 40 h1 h2).1,
    (claim_C3_distance_algebra 10 20 10 20 h1 h1).2.1⟩

/-- Enclosure of the sine of a small positive argument from rational bounds
on the argument, via `sin t < t` and the cubic lower bound on sine. -/
theorem sin_bounds_of (t a b c : ℝ) (ha : a ≤ t) (hb : t ≤ b) (ha0 : 0 < a)
    (hb1 : b ≤ 1) (hc : c ≤ a - b ^ 3 / 4) :
    c ≤ Real.sin t ∧ Real.sin t ≤ b := by
  have ht0 : 0 < t := lt_of_lt_of_le ha0 ha
  have ht1 : t ≤ 1 := le_trans hb hb1
  constructor
  · have hs := Real.sin_gt_sub_cube ht0 ht1
    have h3 : t ^ 3 ≤ b ^ 3 := pow_le_pow_left₀ ht0.le hb 3
    linarith
  · exact le_trans (Real.sin_lt ht0).le hb

/-- Enclosure of the cosine of a small positive argument from rational bounds
on the argument, via the quadratic lower bound on cosine and the half-angle
identity together with the cubic lower bound on sine. -/
theorem cos_bounds_of (x a b lo hi s : ℝ) (ha : a ≤ x) (hb : x ≤ b)
    (ha0 : 0 < a) (hb2 : b ≤ 2) (hlo : lo ≤ 1 - b ^ 2 / 2) (hs0 : 0 < s)
    (hs : s ≤ a / 2 - (b / 2) ^ 3 / 4) (hhi : 1 - 2 * s ^ 2 ≤ hi) :
    lo ≤ Real.cos x ∧ Real.cos x ≤ hi := by
  have hx0 : 0 < x := lt_of_lt_of_le ha0 ha
  have hcos2 : Real.cos x = 1 - 2 * Real.sin (x / 2) ^ 2 := by
    have h := Real.cos_two_mul (x / 2)
    rw [show 2 * (x / 2) = x by ring] at h
    rw [h, Real.cos_sq']
    ring
  constructor
  · have h : 1 - x ^ 2 / 2 ≤ Real.cos x := Real.one_sub_sq_div_two_le_cos
    have h2 : x ^ 2 ≤ b ^ 2 := pow_le_pow_left₀ hx0.le hb 2
    linarith
  · have hhalf := sin_bounds_of (x / 2) (a / 2) (b / 2) s (by linarith)
      (by linarith) (by linarith) (by linarith) hs
    have hsq : s ^ 2 ≤ Real.sin (x / 2) ^ 2 := pow_le_pow_left₀ hs0.le hhalf.1 2
    rw [hcos2]
    linarith

/-- Enclosure of `arcsin (sqrt X)` from a rational enclosure of `X`, for
small arguments: the lower endpoint passes through `sin slo < slo ≤ sqrt X`
and the upper endpoint through `sqrt X ≤ yhi - yhi^3/4 < sin yhi`. -/
theorem arcsin_sqrt_bounds (X slo yhi : ℝ)
    (h1 : slo ^ 2 ≤ X) (h2 : X ≤ (yhi - yhi ^ 3 / 4) ^ 2)
    (hslo : 0 < slo) (hslo_pi : slo < Real.pi / 2)
    (hyhi0 : 0 < yhi) (hyhi1 : yhi ≤ 1) (hyhipi : yhi < Real.pi / 2)
    (hy4 : 0 ≤ yhi - yhi ^ 3 / 4) :
    slo ≤ Real.arcsin (Real.sqrt X) ∧ Real.arcsin (Real.sqrt X) ≤ yhi := by
  have hsq_lo : slo ≤ Real.sqrt X := Real.le_sqrt_of_sq_le h1
  have hsq_hi : Real.sqrt X ≤ yhi - yhi ^ 3 / 4 := by
    have h := Real.sqrt_le_sqrt h2
    rwa [Real.sqrt_sq hy4] at h
  constructor
  · rw [Real.le_arcsin_iff_sin_le' ⟨by linarith [Real.pi_pos], hslo_pi.le⟩]
    exact le_trans (Real.sin_lt hslo).le hsq_lo
  · rw [Real.arcsin_le_iff_le_sin' ⟨by linarith [Real.pi_pos], hyhipi⟩]
    have hs := Real.sin_gt_sub_cube hyhi0 hyhi1
    linarith

set_option maxHeartbeats 2000000 in
/-- Tight two-sided enclosure of the haversine distance between the truncated
PANATHUR and BELLANDUR branch coordinates: the value lies strictly above
3.8 km and at most 3.9 km. -/
theorem haversine_km_fixture_bounds :
    3.8 < haversine_km 12.9382 77.6992 12.9189 77.6701 ∧
    haversine_km 12.9382 77.6992 12.9189 77.6701 ≤ 3.9 := by
  have pi_lo := Real.pi_gt_d6
  have pi_hi := Real.pi_lt_d6
  have hu1 : (0.000168424 : ℝ) ≤ 0.0193 * Real.pi / 360 := by linarith
  have hu2 : 0.0193 * Real.pi / 360 ≤ 0.000168425 := by linarith
  have hv1 : (0.000253945 : ℝ) ≤ 0.0291 * Real.pi / 360 := by linarith
  have hv2 : 0.0291 * Real.pi / 360 ≤ 0.000253946 := by linarith
  have hp1 : (0.225814 : ℝ) ≤ 12.9382 * Real.pi / 180 := by linarith
  have hp2 : 12.9382 * Real.pi / 180 ≤ 0.225815 := by linarith
  have hq1 : (0.225477 : ℝ) ≤ 12.9189 * Real.pi / 180 := by linarith
  have hq2 : 12.9189 * Real.pi / 180 ≤ 0.225478 := by linarith
  have hsinu := sin_bounds_of (0.0193 * Real.pi / 360) 0.000168424 0.000168425
    0.000168423 hu1 hu2 (by norm_num) (by norm_num) (by norm_num)
  have hsinv := sin_bounds_of (0.0291 * Real.pi / 360) 0.000253945 0.000253946
    0.000253944 hv1 hv2 (by norm_num) (by norm_num) (by norm_num)
  have hcosp := cos_bounds_of (12.9382 * Real.pi / 180) 0.225814 0.225815
    0.9745 0.974667 0.112547 hp1 hp2 (by norm_num) (by norm_num) (by norm_num)
    (by norm_num) (by norm_num) (by norm_num)
  have hcosq := cos_bounds_of (12.9189 * Real.pi / 180) 0.225477 0.225478
    0.974579 0.974742 0.11238 hq1 hq2 (by norm_num) (by norm_num) (by norm_num)
    (by norm_num) (by norm_num) (by norm_num)
  have hc0p : (0 : ℝ) ≤ Real.cos (12.9382 * Real.pi / 180) :=
    le_trans (by norm_num) hcosp.1
  have hc0q : (0 : ℝ) ≤ Real.cos (12.9189 * Real.pi / 180) :=
    le_trans (by norm_num) hcosq.1
  have hpq_lo : (0.9745 * 0.974579 : ℝ) ≤
      Real.cos (12.9382 * Real.pi / 180) * Real.cos (12.9189 * Real.pi / 180) :=
    mul_le_mul hcosp.1 hcosq.1 (by norm_num) hc0p
  have hpq_hi : Real.cos (12.9382 * Real.pi / 180) * Real.cos (12.9189 * Real.pi / 180) ≤
      (0.974667 * 0.974742 : ℝ) :=
    mul_le_mul hcosp.2 hcosq.2 hc0q (by norm_num)
  have hsu0 : (0 : ℝ) ≤ Real.sin (0.0193 * Real.pi / 360) :=
    le_trans (by norm_num) hsinu.1
  have hsv0 : (0 : ℝ) ≤ Real.sin (0.0291 * Real.pi / 360) :=
    le_trans (by norm_num) hsinv.1
  have hsusq_lo : (0.000168423 : ℝ) ^ 2 ≤ Real.sin (0.0193 * Real.pi / 360) ^ 2 :=
    pow_le_pow_left₀ (by norm_num) hsinu.1 2
  have hsusq_hi : Real.sin (0.0193 * Real.pi / 360) ^ 2 ≤ (0.000168425 : ℝ) ^ 2 :=
    pow_le_pow_left₀ hsu0 hsinu.2 2
  have hsvsq_lo : (0.000253944 : ℝ) ^ 2 ≤ Real.sin (0.0291 * Real.pi / 360) ^ 2 :=
    pow_le_pow_left₀ (by norm_num) hsinv.1 2
  have hsvsq_hi : Real.sin (0.0291 * Real.pi / 360) ^ 2 ≤ (0.000253946 : ℝ) ^ 2 :=
    pow_le_pow_left₀ hsv0 hsinv.2 2
  have hmul_lo : (0.9745 * 0.974579 : ℝ) * (0.000253944 : ℝ) ^ 2 ≤
      Real.cos (12.9382 * Real.pi / 180) * Real.cos (12.9189 * Real.pi / 180) *
        Real.sin (0.0291 * Real.pi / 360) ^ 2 :=
    mul_le_mul hpq_lo hsvsq_lo (by norm_num) (le_trans (by norm_num) hpq_lo)
  have hmul_hi : Real.cos (12.9382 * Real.pi / 180) * Real.cos (12.9189 * Real.pi / 180) *
      Real.sin (0.0291 * Real.pi / 360) ^ 2 ≤
      (0.974667 * 0.974742 : ℝ) * (0.000253946 : ℝ) ^ 2 :=
    mul_le_mul hpq_hi hsvsq_hi (sq_nonneg _) (by norm_num)
  have hS_lo : (0.000299 : ℝ) ^ 2 ≤
      Real.sin (0.0193 * Real.pi / 360) ^ 2 +
      Real.cos (12.9382 * Real.pi / 180) * Real.cos (12.9189 * Real.pi / 180) *
        Real.sin (0.0291 * Real.pi / 360) ^ 2 := by
    have hnum : (0.000299 : ℝ) ^ 2 ≤
        (0.000168423 : ℝ) ^ 2 + (0.9745 * 0.974579 : ℝ) * (0.000253944 : ℝ) ^ 2 := by
      norm_num
    linarith
  have hS_hi : Real.sin (0.0193 * Real.pi / 360) ^ 2 +
      Real.cos (12.9382 * Real.pi / 180) * Real.cos (12.9189 * Real.pi / 180) *
        Real.sin (0.0291 * Real.pi / 360) ^ 2 ≤
      ((0.0003 : ℝ) - (0.0003 : ℝ) ^ 3 / 4) ^ 2 := by
    have hnum : (0.000168425 : ℝ) ^ 2 + (0.974667 * 0.974742 : ℝ) * (0.000253946 : ℝ) ^ 2 ≤
        ((0.0003 : ℝ) - (0.0003 : ℝ) ^ 3 / 4) ^ 2 := by
      norm_num
    linarith
  have harc := arcsin_sqrt_bounds
    (Real.sin (0.0193 * Real.pi / 360) ^ 2 +
      Real.cos (12.9382 * Real.pi / 180) * Real.cos (12.9189 * Real.pi / 180) *
        Real.sin (0.0291 * Real.pi / 360) ^ 2)
    0.000299 0.0003 hS_lo hS_hi (by norm_num) (by linarith) (by norm_num)
    (by norm_num) (by linarith) (by norm_num)
  have e1 : ((12.9189 : ℝ) - 12.9382) * Real.pi / 180 / 2 =
      -(0.0193 * Real.pi / 360) := by ring
  have e2 : ((77.6701 : ℝ) - 77.6992) * Real.pi / 180 / 2 =
      -(0.0291 * Real.pi / 360) := by ring
  have hav_eq : haversine_km 12.9382 77.6992 12.9189 77.6701 =
      2 * 6371 * Real.arcsin (Real.sqrt
        (Real.sin (0.0193 * Real.pi / 360) ^ 2 +
         Real.cos (12.9382 * Real.pi / 180) * Real.cos (12.9189 * Real.pi / 180) *
           Real.sin (0.0291 * Real.pi / 360) ^ 2)) := by
    unfold haversine_km
    rw [e1, e2, Real.sin_neg, Real.sin_neg, neg_sq, neg_sq]
  constructor
  · rw [hav_eq]
    linarith [harc.1]
  · rw [hav_eq]
    linarith [harc.2]

/-- Counterexample to claim C4 as stated: `distance_km` at the published
truncated coordinates returns the haversine value, but that value exceeds
3.8 km (it is about 3.8147 km), so it is NOT within 0.1 km of 3.7 km. -/
theorem claim_C4_counterexample :
    distance_km 12.9382 77.6992 12.9189 77.6701 =
      Except.ok (haversine_km 12.9382 77.6992 12.9189 77.6701) ∧
    ¬ |haversine_km 12.9382 77.6992 12.9189 77.6701 - 3.7| ≤ 0.1 := by
  constructor
  · unfold distance_km
    rw [if_pos ⟨⟨by norm_num, by norm_num, by norm_num, by norm_num⟩,
      ⟨by norm_num, by norm_num, by norm_num, by norm_num⟩⟩]
  · intro habs
    rw [abs_le] at habs
    have h := haversine_km_fixture_bounds
    linarith [h.1, habs.2]

/-- Claim C4 (amended): `distance_km` at the published truncated PANATHUR and
BELLANDUR coordinates succeeds and returns a value within 0.1 km of 3.8 km
(the haversine formula with Earth radius 6371 km gives about 3.8147 km). -/
theorem claim_C4_fixture_value :
    ∃ dv : ℝ, distance_km 12.9382 77.6992 12.9189 77.6701 = Except.ok dv ∧
      |dv - 3.8| ≤ 0.1 := by
  refine ⟨haversine_km 12.9382 77.6992 12.9189 77.6701, ?_, ?_⟩
  · unfold distance_km
    rw [if_pos ⟨⟨by norm_num, by norm_num, by norm_num, by norm_num⟩,
      ⟨by norm_num, by norm_num, by norm_num, by norm_num⟩⟩]
  · rw [abs_le]
    have h := haversine_km_fixture_bounds
    constructor
    · linarith [h.1]
    · linarith [h.2]

end MapLocator
